import Mathlib

/-!
Verification of the snake game in `src/app/page.tsx`.

The game logic lives in a handful of pure pieces of that file: the tick body
`moveSnake`, the rejection sampler `generateFood`, the direction handler
`handleDirectionChange`, the reset handler `resetGame`, and the inline pause
toggle.  We embed them here over explicit state passing: the React state cells
become the fields of `GameState`, and the stream of values `Math.random` would
produce becomes an explicit candidate list, so that the recursive
`generateFood` returns `none` exactly when the sampled stream never leaves the
snake (the unbounded-retry case).

A point the embedding is careful about: inside the tick and inside
`resetGame`, the source calls the `generateFood` closure of the current
render, which captured the `snake` state *before* the update being applied.
So the food placed on eating is checked against the pre-move body (the new
head cell is not excluded), and the food placed on restart is checked against
the pre-reset body (the new single segment at (10,10) is not excluded).  The
definitions below reproduce exactly that.
-/

/-- Grid positions: the source's `Position` record, an integer pair. -/
@[ext]
structure Position where
  x : Int
  y : Int
deriving DecidableEq

/-- The four movement directions of the source's `Direction` union type. -/
inductive Direction where
  | UP
  | DOWN
  | LEFT
  | RIGHT
deriving DecidableEq

/-- The game state: the React state cells `snake`, `food`, `direction`,
`gameOver`, `isPaused`, `score`, `speed` gathered into one record.
`speed` is the spec's `tickIntervalMs`, `gameOver` its `isOver`. -/
structure GameState where
  snake : List Position
  food : Position
  direction : Direction
  gameOver : Bool
  isPaused : Bool
  score : Int
  speed : Int
deriving DecidableEq

/-- The fixed grid constant (`const gridSize = 20`). -/
def gridSize : Int := 20

/-- The initial tick interval in milliseconds (`const initialSpeed = 150`). -/
def initialSpeed : Int := 150

/-- The source's `isOnSnake` test inside `generateFood` and the self-collision
test inside `moveSnake`: some segment of the list agrees with `p` on both
coordinates. -/
def isOnSnake (snake : List Position) (p : Position) : Prop :=
  ∃ segment ∈ snake, segment.x = p.x ∧ segment.y = p.y

instance (snake : List Position) (p : Position) : Decidable (isOnSnake snake p) := by
  unfold isOnSnake
  infer_instance

/-- The rejection sampler `generateFood`: `cands` is the stream of candidates
the successive `Math.random` draws would produce; the source retries while the
candidate lies on the snake it closed over, so `none` models the stream being
exhausted with every candidate occupied (the non-terminating case). -/
def generateFood (snake : List Position) : List Position → Option Position
  | [] => none
  | c :: cs =>
      if isOnSnake snake c then generateFood snake cs
      else some c

/-- The head shifted one cell in the given direction: the `switch` on
`directionRef.current` at the top of `moveSnake`. -/
def newHead (h : Position) : Direction → Position
  | .UP => { h with y := h.y - 1 }
  | .DOWN => { h with y := h.y + 1 }
  | .LEFT => { h with x := h.x - 1 }
  | .RIGHT => { h with x := h.x + 1 }

/-- One tick: the body of `moveSnake`.  Wall check, then self-collision
against the segments of index `> 0` (the tail `t`), then food check.  On
eating, the new food comes from `generateFood` applied to the pre-move body
`h0 :: t` (the closure the source calls captured the snake before this
update), the score rises by 10 and the speed drops by 2 while above 50;
otherwise the last element is popped.  The source never runs the tick with an
empty snake (length stays at least 1 from the initial singleton), so that case
just returns the state. -/
def moveSnake (cands : List Position) (s : GameState) : Option GameState :=
  match s.snake with
  | [] => some s
  | h0 :: t =>
      let hd := newHead h0 s.direction
      if hd.x < 0 ∨ gridSize ≤ hd.x ∨ hd.y < 0 ∨ gridSize ≤ hd.y then
        some { s with gameOver := true }
      else if isOnSnake t hd then
        some { s with gameOver := true }
      else if hd.x = s.food.x ∧ hd.y = s.food.y then
        (generateFood (h0 :: t) cands).map fun f =>
          { s with
              snake := hd :: h0 :: t
              food := f
              score := s.score + 10
              speed := if 50 < s.speed then s.speed - 2 else s.speed }
      else
        some { s with snake := (hd :: h0 :: t).dropLast }

/-- The source's `handleDirectionChange`: ignored once the game is over,
otherwise the request is applied unless it would reverse the current heading
(the keyboard handler `handleKeyDown` implements the same guard per key). -/
def handleDirectionChange (s : GameState) (newDirection : Direction) : GameState :=
  if s.gameOver then s
  else if (newDirection = .UP ∧ s.direction ≠ .DOWN) ∨
          (newDirection = .DOWN ∧ s.direction ≠ .UP) ∨
          (newDirection = .LEFT ∧ s.direction ≠ .RIGHT) ∨
          (newDirection = .RIGHT ∧ s.direction ≠ .LEFT) then
    { s with direction := newDirection }
  else s

/-- The source's `resetGame`.  The fresh food comes from the `generateFood`
closure of the current render, which captured the pre-reset `snake`, so the
candidate is checked against `s.snake` and not against the new singleton body. -/
def resetGame (cands : List Position) (s : GameState) : Option GameState :=
  (generateFood s.snake cands).map fun f =>
    { snake := [⟨10, 10⟩]
      food := f
      direction := .RIGHT
      gameOver := false
      isPaused := false
      score := 0
      speed := initialSpeed }

/-- The inline pause toggle `setIsPaused(prev => !prev)`. -/
def togglePause (s : GameState) : GameState :=
  { s with isPaused := !s.isPaused }

/-- The state at game start: singleton snake at (10,10), heading RIGHT,
score 0, interval 150, paused.  The food cell is produced by the
food-initialization effect, so we parametrize over it. -/
def initState (f : Position) : GameState :=
  { snake := [⟨10, 10⟩]
    food := f
    direction := .RIGHT
    gameOver := false
    isPaused := true
    score := 0
    speed := initialSpeed }

/-- The reversal pairing on directions (UP-DOWN and LEFT-RIGHT). -/
def opposite : Direction → Direction
  | .UP => .DOWN
  | .DOWN => .UP
  | .LEFT => .RIGHT
  | .RIGHT => .LEFT

/-- One externally triggered transition within a single game lifetime: a tick
(only fired while neither paused nor over, since the main-loop effect returns
early otherwise), a direction request, or a pause toggle.  Restart starts a
new lifetime and is deliberately not a step. -/
inductive Step : GameState → GameState → Prop where
  | tick (cands : List Position) (s s' : GameState) (hp : s.isPaused = false)
      (ho : s.gameOver = false) (h : moveSnake cands s = some s') : Step s s'
  | dir (s : GameState) (d : Direction) : Step s (handleDirectionChange s d)
  | pause (s : GameState) : Step s (togglePause s)

/-- States reachable in one game lifetime from the start state (any initial
food cell), via `Step`. -/
inductive Reachable : GameState → Prop where
  | init (f : Position) : Reachable (initState f)
  | step {s s' : GameState} : Reachable s → Step s s' → Reachable s'

/-- Running state one cell left of the food, about to eat it. -/
def eatState : GameState :=
  { snake := [⟨1, 1⟩]
    food := ⟨2, 1⟩
    direction := .RIGHT
    gameOver := false
    isPaused := false
    score := 0
    speed := 150 }

/-- Running state on the left wall, heading LEFT (spec scenario 7). -/
def wallState : GameState :=
  { snake := [⟨0, 5⟩, ⟨1, 5⟩]
    food := ⟨9, 9⟩
    direction := .LEFT
    gameOver := false
    isPaused := false
    score := 0
    speed := 150 }

/-- Running state whose next head cell revisits its own body (spec scenario 8). -/
def selfHitState : GameState :=
  { snake := [⟨6, 6⟩, ⟨6, 5⟩, ⟨5, 5⟩]
    food := ⟨9, 9⟩
    direction := .UP
    gameOver := false
    isPaused := false
    score := 0
    speed := 150 }

/-- Running two-segment snake heading RIGHT, tail directly behind the head. -/
def reversalState : GameState :=
  { snake := [⟨5, 5⟩, ⟨4, 5⟩]
    food := ⟨9, 9⟩
    direction := .RIGHT
    gameOver := false
    isPaused := false
    score := 0
    speed := 150 }

/-- The state `eatState` reaches after one tick when the sampler draws (5,5):
the body has grown onto the food cell. -/
def eatenState : GameState :=
  { snake := [⟨2, 1⟩, ⟨1, 1⟩]
    food := ⟨5, 5⟩
    direction := .RIGHT
    gameOver := false
    isPaused := false
    score := 10
    speed := 148 }

/-- A finished game whose body does not contain the cell (10,10). -/
def staleRestartState : GameState :=
  { snake := [⟨0, 0⟩]
    food := ⟨3, 3⟩
    direction := .RIGHT
    gameOver := true
    isPaused := false
    score := 40
    speed := 142 }

/-! ## Helper lemmas -/

/-- Shifting the head one cell always changes it: the new head never equals
the old head, so the index-zero exclusion in the self-collision test is
vacuous. -/
theorem newHead_ne (p : Position) (d : Direction) : newHead p d ≠ p := by
  intro hc
  cases d <;>
    · have hx := congrArg Position.x hc
      have hy := congrArg Position.y hc
      simp only [newHead] at hx hy
      omega

/-- The direction handler either applies the request or leaves the state
alone: on a live game it is the identity exactly when the request reverses
the current heading. -/
theorem handleDirectionChange_eq (s : GameState) (d : Direction) (ho : s.gameOver = false) :
    handleDirectionChange s d =
      if d = opposite s.direction then s else { s with direction := d } := by
  cases d <;> cases hdir : s.direction <;>
    simp [handleDirectionChange, opposite, ho, hdir]

/-- The direction handler never touches the speed field. -/
theorem handleDirectionChange_speed (s : GameState) (d : Direction) :
    (handleDirectionChange s d).speed = s.speed := by
  unfold handleDirectionChange
  split_ifs <;> rfl

/-- A completed tick either keeps the speed or, when it was above 50,
lowers it by exactly 2. -/
theorem moveSnake_speed (cands : List Position) (s s' : GameState)
    (h : moveSnake cands s = some s') :
    s'.speed = s.speed ∨ (50 < s.speed ∧ s'.speed = s.speed - 2) := by
  obtain ⟨sn, fd, dr, go, ip, sc, sp⟩ := s
  cases sn with
  | nil =>
      simp only [moveSnake] at h
      cases Option.some.inj h
      left; rfl
  | cons h0 t =>
      simp only [moveSnake] at h
      split_ifs at h with hw hs hf h50
      · cases Option.some.inj h; left; rfl
      · cases Option.some.inj h; left; rfl
      · cases hg : generateFood (h0 :: t) cands with
        | none =>
            rw [hg] at h
            simp at h
        | some f =>
            rw [hg, Option.map_some'] at h
            have h2 := Option.some.inj h
            subst h2
            right
            exact ⟨h50, rfl⟩
      · cases hg : generateFood (h0 :: t) cands with
        | none =>
            rw [hg] at h
            simp at h
        | some f =>
            rw [hg, Option.map_some'] at h
            have h2 := Option.some.inj h
            subst h2
            left
            rfl
      · cases Option.some.inj h; left; rfl

/-! ## Claim theorems -/

/-- C4: from a live, unpaused state, a tick whose shifted head leaves the
board in either coordinate only sets the game-over flag: the snake does not
move, and food, score and speed keep their prior values, whatever the
direction and however the head went out. -/
theorem tick_wall_collision_freezes_state (cands : List Position)
    (h0 : Position) (t : List Position) (fd : Position) (dr : Direction)
    (sc sp : Int) (s' : GameState)
    (hw : (newHead h0 dr).x < 0 ∨ gridSize ≤ (newHead h0 dr).x ∨
          (newHead h0 dr).y < 0 ∨ gridSize ≤ (newHead h0 dr).y)
    (h : moveSnake cands ⟨h0 :: t, fd, dr, false, false, sc, sp⟩ = some s') :
    s' = ⟨h0 :: t, fd, dr, true, false, sc, sp⟩ := by
  simp only [moveSnake] at h
  rw [if_pos hw] at h
  exact (Option.some.inj h).symm

/-- Witness for C4: spec scenario 7, heading LEFT off the left wall. -/
theorem tick_wall_collision_freezes_state_witness :
    ((newHead ⟨0, 5⟩ .LEFT).x < 0 ∨ gridSize ≤ (newHead ⟨0, 5⟩ .LEFT).x ∨
      (newHead ⟨0, 5⟩ .LEFT).y < 0 ∨ gridSize ≤ (newHead ⟨0, 5⟩ .LEFT).y) ∧
    ({ wallState with gameOver := true } : GameState) =
      ⟨[⟨0, 5⟩, ⟨1, 5⟩], ⟨9, 9⟩, .LEFT, true, false, 0, 150⟩ :=
  ⟨by decide,
   tick_wall_collision_freezes_state [] ⟨0, 5⟩ [⟨1, 5⟩] ⟨9, 9⟩ .LEFT 0 150
     { wallState with gameOver := true } (by decide) (by decide)⟩

/-- C3: from a live, unpaused state, if the shifted head coincides with any
current segment before the body moves (the head segment included: the shift
moves the head away by one cell, so it never matches the head itself, and
checking the index-positive segments as the source does is equivalent), the
tick only sets the game-over flag; snake, food, score and speed are all
unchanged. -/
theorem tick_self_collision_freezes_state (cands : List Position)
    (h0 : Position) (t : List Position) (fd : Position) (dr : Direction)
    (sc sp : Int) (s' : GameState)
    (hcol : newHead h0 dr ∈ h0 :: t)
    (h : moveSnake cands ⟨h0 :: t, fd, dr, false, false, sc, sp⟩ = some s') :
    s' = ⟨h0 :: t, fd, dr, true, false, sc, sp⟩ := by
  have hmem : newHead h0 dr ∈ t := by
    rcases List.mem_cons.mp hcol with hc | hc
    · exact absurd hc (newHead_ne h0 dr)
    · exact hc
  have hsnake : isOnSnake t (newHead h0 dr) := ⟨newHead h0 dr, hmem, rfl, rfl⟩
  simp only [moveSnake] at h
  split_ifs at h with hw
  · exact (Option.some.inj h).symm
  · exact (Option.some.inj h).symm

/-- Witness for C3: spec scenario 8, the head at (6,6) moving UP revisits the
body cell (6,5). -/
theorem tick_self_collision_freezes_state_witness :
    newHead ⟨6, 6⟩ .UP ∈ ([⟨6, 6⟩, ⟨6, 5⟩, ⟨5, 5⟩] : List Position) ∧
    ({ selfHitState with gameOver := true } : GameState) =
      ⟨[⟨6, 6⟩, ⟨6, 5⟩, ⟨5, 5⟩], ⟨9, 9⟩, .UP, true, false, 0, 150⟩ :=
  ⟨by decide,
   tick_self_collision_freezes_state [] ⟨6, 6⟩ [⟨6, 5⟩, ⟨5, 5⟩] ⟨9, 9⟩ .UP 0 150
     { selfHitState with gameOver := true } (by decide) (by decide)⟩

/-- C1: a live, unpaused tick that does not end in a collision grows the body
by exactly one, adds 10 to the score, and lowers the interval by 2 unless it
is already at the floor 50 (where it stays), exactly when the shifted head
lands on the food; when it does not, body length, score and interval are all
unchanged.  The hypothesis `50 ≤ sp` is the spec's data-model invariant on
`tickIntervalMs`, established for every reachable state by the C6 theorem. -/
theorem tick_food_growth_score_speed (cands : List Position)
    (h0 : Position) (t : List Position) (fd : Position) (dr : Direction)
    (sc sp : Int) (s' : GameState)
    (hsp : 50 ≤ sp)
    (h : moveSnake cands ⟨h0 :: t, fd, dr, false, false, sc, sp⟩ = some s')
    (hnc : s'.gameOver = false) :
    (newHead h0 dr = fd →
        s'.snake.length = (h0 :: t).length + 1 ∧ s'.score = sc + 10 ∧
        s'.speed = if sp = 50 then sp else sp - 2) ∧
    (newHead h0 dr ≠ fd →
        s'.snake.length = (h0 :: t).length ∧ s'.score = sc ∧ s'.speed = sp) := by
  simp only [moveSnake] at h
  split_ifs at h with hw hs hf h50
  · have h2 := (Option.some.inj h).symm
    subst h2
    simp at hnc
  · have h2 := (Option.some.inj h).symm
    subst h2
    simp at hnc
  · cases hg : generateFood (h0 :: t) cands with
    | none =>
        rw [hg] at h
        simp at h
    | some f =>
        rw [hg, Option.map_some'] at h
        have h2 := (Option.some.inj h).symm
        subst h2
        have hfd : newHead h0 dr = fd := Position.ext hf.1 hf.2
        constructor
        · intro _
          refine ⟨by simp, rfl, ?_⟩
          have hne : sp ≠ 50 := by omega
          simp only [if_neg hne]
        · intro hne
          exact absurd hfd hne
  · cases hg : generateFood (h0 :: t) cands with
    | none =>
        rw [hg] at h
        simp at h
    | some f =>
        rw [hg, Option.map_some'] at h
        have h2 := (Option.some.inj h).symm
        subst h2
        have hfd : newHead h0 dr = fd := Position.ext hf.1 hf.2
        have hsp50 : sp = 50 := by omega
        constructor
        · intro _
          refine ⟨by simp, rfl, ?_⟩
          simp only [hsp50, if_pos]
        · intro hne
          exact absurd hfd hne
  · have h2 := (Option.some.inj h).symm
    subst h2
    have hfd : newHead h0 dr ≠ fd := by
      intro he
      exact hf ⟨by rw [he], by rw [he]⟩
    constructor
    · intro he
      exact absurd he hfd
    · intro _
      refine ⟨?_, rfl, rfl⟩
      simp only [List.dropLast_cons_of_ne_nil (List.cons_ne_nil h0 t), List.length_cons]
      simp [List.length_dropLast]

/-- Witness for C1: the singleton snake at (1,1) eats the food at (2,1);
length goes to 2, score to 10, interval to 148. -/
theorem tick_food_growth_score_speed_witness :
    (⟨[⟨2, 1⟩, ⟨1, 1⟩], ⟨5, 5⟩, .RIGHT, false, false, 10, 148⟩ : GameState).snake.length
        = ([⟨1, 1⟩] : List Position).length + 1 ∧
    (⟨[⟨2, 1⟩, ⟨1, 1⟩], ⟨5, 5⟩, .RIGHT, false, false, 10, 148⟩ : GameState).score = 0 + 10 ∧
    (⟨[⟨2, 1⟩, ⟨1, 1⟩], ⟨5, 5⟩, .RIGHT, false, false, 10, 148⟩ : GameState).speed
        = if (150 : Int) = 50 then 150 else 150 - 2 :=
  (tick_food_growth_score_speed [⟨5, 5⟩] ⟨1, 1⟩ [] ⟨2, 1⟩ .RIGHT 0 150
      ⟨[⟨2, 1⟩, ⟨1, 1⟩], ⟨5, 5⟩, .RIGHT, false, false, 10, 148⟩
      (by decide) (by decide) (by decide)).1 (by decide)

/-- C2 is violated by the code: on the tick that eats the food, the
replacement food is checked against the pre-move body only (the closure the
tick calls captured the snake before this update), so it can be placed on
the very cell the new head has just moved onto.  Here the singleton snake at
(1,1) eats the food at (2,1) while the sampler draws (2,1): the placement is
accepted and the returned food coincides with the head of the snake at the
time of placement. -/
theorem tick_places_food_on_new_head :
    moveSnake [⟨2, 1⟩] eatState =
      some ⟨[⟨2, 1⟩, ⟨1, 1⟩], ⟨2, 1⟩, .RIGHT, false, false, 10, 148⟩ ∧
    Option.any (fun s2 => decide (s2.food ∈ s2.snake)) (moveSnake [⟨2, 1⟩] eatState) = true := by
  decide

/-- C5 as the spec's scenario states it is false: eating grows the body, so
the tick from snake [(1,1)], food (2,1), heading RIGHT leaves the
two-segment snake [(2,1),(1,1)], not the singleton [(2,1)] the scenario
claims. -/
theorem scenario_tick_snake_cex :
    moveSnake [⟨5, 5⟩] eatState = some eatenState ∧
    eatenState.snake ≠ [⟨2, 1⟩] := by
  decide

/-- C5 amended: from snake [(1,1)], heading RIGHT, food (2,1), score 0,
interval 150, one tick yields snake [(2,1),(1,1)], score 10, interval 148
and the game still running, whatever candidate stream the food sampler
consumes (provided it terminates). -/
theorem scenario_tick_amended (cands : List Position) (s' : GameState)
    (h : moveSnake cands eatState = some s') :
    s'.snake = [⟨2, 1⟩, ⟨1, 1⟩] ∧ s'.score = 10 ∧ s'.speed = 148 ∧ s'.gameOver = false := by
  simp only [moveSnake, eatState] at h
  split_ifs at h with h1 h2 h3 h4
  · exact absurd h1 (by decide)
  · exact absurd h2 (by decide)
  · cases hg : generateFood [⟨1, 1⟩] cands with
    | none =>
        rw [hg] at h
        simp at h
    | some f =>
        rw [hg, Option.map_some'] at h
        have h5 := (Option.some.inj h).symm
        subst h5
        exact ⟨rfl, rfl, rfl, rfl⟩
  · exact absurd (by decide) h4
  · exact absurd (by decide) h3

/-- Witness for the amended C5, with the sampler drawing (5,5). -/
theorem scenario_tick_amended_witness :
    eatenState.snake = [⟨2, 1⟩, ⟨1, 1⟩] ∧ eatenState.score = 10 ∧
    eatenState.speed = 148 ∧ eatenState.gameOver = false :=
  scenario_tick_amended [⟨5, 5⟩] eatenState (by decide)

/-- C7: on a live game a direction request replaces the stored direction,
unless it is the exact opposite of the current one, in which case the whole
state is unchanged. -/
theorem direction_change_rule (s : GameState) (d : Direction) (ho : s.gameOver = false) :
    handleDirectionChange s d =
      if d = opposite s.direction then s else { s with direction := d } :=
  handleDirectionChange_eq s d ho

/-- Witness for C7 on a concrete RIGHT-heading live state. -/
theorem direction_change_rule_witness :
    handleDirectionChange reversalState .UP =
      if Direction.UP = opposite reversalState.direction then reversalState
      else { reversalState with direction := .UP } :=
  direction_change_rule reversalState .UP rfl

/-- C10: pausing does not gate direction requests: `handleDirectionChange`
never consults the pause flag, so on a live paused state a non-reversing
request replaces the direction (and changes nothing else), while once the
game is over every request is ignored wholesale. -/
theorem direction_change_during_pause (s : GameState) (d : Direction)
    (ho : s.gameOver = false) (hp : s.isPaused = true)
    (hnd : d ≠ opposite s.direction) :
    handleDirectionChange s d = { s with direction := d } ∧
    ∀ s₂ : GameState, ∀ d₂ : Direction, s₂.gameOver = true → handleDirectionChange s₂ d₂ = s₂ := by
  constructor
  · rw [handleDirectionChange_eq s d ho, if_neg hnd]
  · intro s₂ d₂ ho₂
    unfold handleDirectionChange
    rw [ho₂]
    simp

/-- Witness for C10: requesting UP on the paused start state applies. -/
theorem direction_change_during_pause_witness :
    handleDirectionChange (initState ⟨5, 5⟩) .UP = { initState ⟨5, 5⟩ with direction := .UP } :=
  (direction_change_during_pause (initState ⟨5, 5⟩) .UP rfl rfl (by decide)).1

/-- C9: the non-reversal guard only checks the stored direction, so two
requests arriving between ticks can reverse the heading: from a
RIGHT-heading state, requesting UP and then LEFT stores LEFT, the exact
opposite of RIGHT; and on a two-segment snake whose tail sits directly
behind the head, the next tick then self-collides immediately. -/
theorem double_direction_change_reverses :
    (handleDirectionChange (handleDirectionChange reversalState .UP) .LEFT).direction = .LEFT ∧
    Direction.LEFT = opposite reversalState.direction ∧
    2 ≤ reversalState.snake.length ∧
    moveSnake [] (handleDirectionChange (handleDirectionChange reversalState .UP) .LEFT) =
      some { handleDirectionChange (handleDirectionChange reversalState .UP) .LEFT with
             gameOver := true } := by
  decide

/-- C8 is violated by the code: restart does reset snake, direction, score,
interval and both flags exactly as claimed, but the fresh food is checked
against the pre-restart snake (the closure captured the old body), so it can
land exactly on the new single segment (10,10).  Here the old body is
[(0,0)] and the sampler draws (10,10): the placement is accepted and the
restarted state has its food on its snake. -/
theorem restart_places_food_on_new_snake :
    resetGame [⟨10, 10⟩] staleRestartState =
      some ⟨[⟨10, 10⟩], ⟨10, 10⟩, .RIGHT, false, false, 0, 150⟩ ∧
    Option.any (fun s2 => decide (s2.food ∈ s2.snake))
      (resetGame [⟨10, 10⟩] staleRestartState) = true := by
  decide

/-- Every state reachable within one lifetime keeps the interval even and in
[50, 150]: it starts at 150 and only ever steps down by 2 while above 50. -/
theorem reachable_speed_aux (s : GameState) (h : Reachable s) :
    50 ≤ s.speed ∧ s.speed ≤ 150 ∧ 2 ∣ s.speed := by
  induction h with
  | init f =>
      refine ⟨?_, ?_, ?_⟩ <;>
        · simp only [initState, initialSpeed]
          omega
  | step hr hst ih =>
      obtain ⟨a, b, c⟩ := ih
      cases hst with
      | tick cands s s' hp ho hmv =>
          rcases moveSnake_speed _ _ _ hmv with heq | ⟨hgt, heq⟩
          · rw [heq]
            exact ⟨a, b, c⟩
          · rw [heq]
            exact ⟨by omega, by omega, by omega⟩
      | dir s d =>
          rw [handleDirectionChange_speed]
          exact ⟨a, b, c⟩
      | pause s =>
          exact ⟨a, b, c⟩

/-- C6: within one game lifetime (ticks, direction requests and pause
toggles; restart starts a new lifetime) the interval of every reachable
state satisfies 50 ≤ tickIntervalMs ≤ 150, and every single step leaves it
non-increasing, so the decrement guarded by `speed > 50` never drives it
below 50. -/
theorem speed_bounded_and_monotone :
    (∀ s : GameState, Reachable s → 50 ≤ s.speed ∧ s.speed ≤ 150) ∧
    (∀ s s' : GameState, Step s s' → s'.speed ≤ s.speed) := by
  constructor
  · intro s hs
    exact ⟨(reachable_speed_aux s hs).1, (reachable_speed_aux s hs).2.1⟩
  · intro u u' hst
    cases hst with
    | tick cands w w' hp ho hmv =>
        rcases moveSnake_speed _ _ _ hmv with heq | ⟨hgt, heq⟩ <;> omega
    | dir w d =>
        simp [handleDirectionChange_speed]
    | pause w =>
        exact le_rfl

/-- Witness for C6 at the start state, with a pause toggle as the step. -/
theorem speed_bounded_and_monotone_witness :
    (50 ≤ (initState ⟨5, 5⟩).speed ∧ (initState ⟨5, 5⟩).speed ≤ 150) ∧
    (togglePause (initState ⟨5, 5⟩)).speed ≤ (initState ⟨5, 5⟩).speed :=
  ⟨speed_bounded_and_monotone.1 (initState ⟨5, 5⟩) (Reachable.init ⟨5, 5⟩),
   speed_bounded_and_monotone.2 (initState ⟨5, 5⟩) (togglePause (initState ⟨5, 5⟩))
     (Step.pause (initState ⟨5, 5⟩))⟩
